import Mathlib

/-!
# Verification of the footy CLI core (src/lib.rs)

Shallow embedding of the ingestion–normalization–rendering pipeline of the
football CLI. Pure string/list manipulation is translated directly; effects
are made explicit:

* raw HTTP bodies are modelled as already-parsed JSON values (`Json`);
  a body that is valid JSON but not an object is `Json.arr`/`Json.str`/…,
  and `serde_json::from_str::<Map<String,Value>>` failing on it is the
  `ParseError.notObject` outcome;
* `serde`'s derived deserializers for the record structs (`Fixture`,
  `TeamStanding`) are generated code outside src/, so functions that invoke
  them take the deserializer as an explicit parameter `deser`; every theorem
  quantifies over it, so nothing proved depends on its behaviour;
* the wall clock (`Utc::now` inside `get_today_date`) is an explicit oracle
  `clock : Nat → String` giving the result of the i-th `get_today_date` call
  of a batch;
* the file system for the roster store is an explicit map from path to
  optional file content (`none` = file absent);
* Rust `String::len` is UTF-8 byte length, modelled by `String.utf8ByteSize`;
  `to_lowercase`/`trim` are modelled at the ASCII level (`strToLower`,
  `Char.isWhitespace`), which agrees with Rust on all inputs appearing here.
-/

namespace Footy

/-- JSON values, the model of `serde_json::Value`. -/
inductive Json where
  | null : Json
  | bool (b : Bool) : Json
  | num (n : Int) : Json
  | str (s : String) : Json
  | arr (elems : List Json) : Json
  | obj (fields : List (String × Json)) : Json

/-- Lookup in a JSON object, modelling `serde_json::Map::get` after
`from_str` built the map by successive inserts: a later duplicate key wins. -/
def objGet : List (String × Json) → String → Option Json
  | [], _ => none
  | (k, v) :: rest, key =>
    match objGet rest key with
    | some w => some w
    | none => if k = key then some v else none

/-- `CommandType` from src/lib.rs. -/
inductive CommandType where
  | scores | schedule | teams | live | standings
deriving DecidableEq

/-- `Status` from src/lib.rs (fixture status block). -/
structure Status where
  long : String
  short : String
  elapsed : Option Nat

/-- `Periods` from src/lib.rs. -/
structure Periods where
  first : Option Nat
  second : Option Nat

/-- `Venue` from src/lib.rs. -/
structure Venue where
  id : Option Nat
  name : String
  city : String

/-- `FixtureData` from src/lib.rs. -/
structure FixtureData where
  id : Nat
  referee : String
  timezone : String
  date : String
  timestamp : Int
  periods : Periods
  venue : Option Venue
  status : Status

/-- `LeagueData` from src/lib.rs. -/
structure LeagueData where
  id : Nat
  name : String
  country : String
  logo : String
  flag : Option String
  season : Nat
  round : Option String

/-- `Team` from src/lib.rs. -/
structure Team where
  id : Nat
  name : String
  logo : String
  winner : Option Bool

/-- `TeamsData` from src/lib.rs. -/
structure TeamsData where
  home : Team
  away : Team

/-- `GoalsData` from src/lib.rs. -/
structure GoalsData where
  home : Option Nat
  away : Option Nat

/-- `HalftimeScore` from src/lib.rs. -/
structure HalftimeScore where
  home : Option Nat
  away : Option Nat

/-- `FulltimeScore` from src/lib.rs. -/
structure FulltimeScore where
  home : Option Nat
  away : Option Nat

/-- `ExtraTimeScore` from src/lib.rs. -/
structure ExtraTimeScore where
  home : Option Nat
  away : Option Nat

/-- `PenaltyScore` from src/lib.rs. -/
structure PenaltyScore where
  home : Option Nat
  away : Option Nat

/-- `ScoreData` from src/lib.rs. -/
structure ScoreData where
  halftime : HalftimeScore
  fulltime : FulltimeScore
  extratime : ExtraTimeScore
  penalty : PenaltyScore

/-- `Fixture` from src/lib.rs: one match record of the upstream API. -/
structure Fixture where
  fixture : FixtureData
  league : LeagueData
  teams : TeamsData
  goals : GoalsData
  score : Option ScoreData

/-- Error outcomes of the normalizers (in src they are `Box<dyn Error>`
values: a `serde_json::from_str` failure, the string
"Missing 'response' field", or a `serde_json::from_value` failure). -/
inductive ParseError where
  | notObject
  | missingResponse
  | deserialization
deriving DecidableEq

/-- The body of the `for json in json_list` loop of `parse_fixtures`
(src/lib.rs lines 468–473): parse the body as a JSON object, look up
`response`, deserialize it into a fixture list via `deser`. -/
def processFixtureBody (deser : Json → Option (List Fixture)) :
    Json → Except ParseError (List Fixture)
  | Json.obj m =>
    match objGet m "response" with
    | none => .error .missingResponse
    | some r =>
      match deser r with
      | none => .error .deserialization
      | some fl => .ok fl
  | _ => .error .notObject

/-- The sequential accumulation loop shared by `parse_fixtures` and
`parse_standings`: process bodies in order, push each result, and return
early on the first error (the `?` operator). -/
def batchGo {β : Type} (f : Json → Except ParseError β) :
    List Json → Except ParseError (List β)
  | [] => .ok []
  | j :: rest =>
    match f j with
    | .error e => .error e
    | .ok v =>
      match batchGo f rest with
      | .error e => .error e
      | .ok vs => .ok (v :: vs)

/-- `parse_fixtures` from src/lib.rs (lines 460–476): an empty input list
short-circuits to `Ok(vec![vec![]])`; otherwise each body is processed in
order by `processFixtureBody`. -/
def parse_fixtures (deser : Json → Option (List Fixture)) (json_list : List Json) :
    Except ParseError (List (List Fixture)) :=
  if json_list.isEmpty then .ok [[]]
  else batchGo (processFixtureBody deser) json_list

/-- `check_if_fixture_in_progress` from src/lib.rs (lines 866–875),
with the exact branch structure of the source. -/
def check_if_fixture_in_progress (short_status : String) : String :=
  if short_status = "FT" then ""
  else if short_status ≠ "TBD" ∧ short_status ≠ "NS" then "| In Progress"
  else ""

/-! ## Helper lemmas about the batch loop -/

/-- If the batch loop succeeds, the output has one entry per input body. -/
theorem batchGo_ok_length {β : Type} (f : Json → Except ParseError β) :
    ∀ (l : List Json) (res : List β), batchGo f l = .ok res → res.length = l.length := by
  intro l
  induction l with
  | nil => intro res h; simp only [batchGo] at h; cases h; rfl
  | cons j rest ih =>
    intro res h
    simp only [batchGo] at h
    cases hf : f j with
    | error e => rw [hf] at h; cases h
    | ok v =>
      rw [hf] at h
      cases hr : batchGo f rest with
      | error e => rw [hr] at h; cases h
      | ok vs =>
        rw [hr] at h
        cases h
        simp [ih vs hr]

/-- If the batch loop succeeds, every body was processed successfully. -/
theorem batchGo_ok_mem {β : Type} (f : Json → Except ParseError β) :
    ∀ (l : List Json) (res : List β), batchGo f l = .ok res →
      ∀ j ∈ l, ∃ v, f j = .ok v := by
  intro l
  induction l with
  | nil => intro res _ j hj; cases hj
  | cons a rest ih =>
    intro res h j hj
    simp only [batchGo] at h
    cases hf : f a with
    | error e => rw [hf] at h; cases h
    | ok v =>
      rw [hf] at h
      cases hr : batchGo f rest with
      | error e => rw [hr] at h; cases h
      | ok vs =>
        rcases List.mem_cons.mp hj with rfl | hmem
        · exact ⟨v, hf⟩
        · exact ih vs hr j hmem

/-- Prepending successfully-processed bodies preserves the loop's error. -/
theorem batchGo_append_error {β : Type} (f : Json → Except ParseError β)
    (pre : List Json) (hpre : ∀ j ∈ pre, ∃ v, f j = .ok v)
    (rest : List Json) (e : ParseError) (hrest : batchGo f rest = .error e) :
    batchGo f (pre ++ rest) = .error e := by
  induction pre with
  | nil => simpa using hrest
  | cons a l ih =>
    obtain ⟨v, hv⟩ := hpre a (List.mem_cons_self a l)
    have hl : ∀ j ∈ l, ∃ v, f j = .ok v := fun j hj => hpre j (List.mem_cons_of_mem a hj)
    simp only [List.cons_append, batchGo, hv]
    rw [List.append_eq, ih hl]

/-- A trivial stand-in fixture deserializer, used only to instantiate
theorems that quantify over the deserializer. -/
def fixtureDeserNone : Json → Option (List Fixture) := fun _ => none

/-- C1: `parse_fixtures` on the empty list of raw bodies returns exactly one
empty inner sequence — `Ok(vec![vec![]])` — not zero inner sequences and not
an error, regardless of the fixture deserializer. -/
theorem parse_fixtures_empty_singleton (deser : Json → Option (List Fixture)) :
    parse_fixtures deser [] = .ok [[]] := rfl

/-- C5: a raw body that is a JSON object without a top-level `response` key
makes `parse_fixtures` fail the whole batch: if all earlier bodies process
successfully the batch error is exactly the missing-field error, and whenever
such a body occurs anywhere in the batch the result is never `Ok`. -/
theorem parse_fixtures_missing_response_errors (deser : Json → Option (List Fixture)) :
    (∀ (pre : List Json) (m : List (String × Json)) (post : List Json),
       (∀ j ∈ pre, ∃ v, processFixtureBody deser j = .ok v) →
       objGet m "response" = none →
       parse_fixtures deser (pre ++ Json.obj m :: post) = .error .missingResponse) ∧
    (∀ (bodies : List Json) (m : List (String × Json)),
       Json.obj m ∈ bodies → objGet m "response" = none →
       ∀ res, parse_fixtures deser bodies ≠ .ok res) := by
  constructor
  · intro pre m post hpre hm
    have hbody : processFixtureBody deser (Json.obj m) = .error .missingResponse := by
      simp [processFixtureBody, hm]
    have hrest : batchGo (processFixtureBody deser) (Json.obj m :: post) =
        .error .missingResponse := by
      simp [batchGo, hbody]
    rw [parse_fixtures, if_neg (by simp)]
    exact batchGo_append_error _ pre hpre _ _ hrest
  · intro bodies m hmem hm res hok
    cases bodies with
    | nil => cases hmem
    | cons b rest =>
      rw [parse_fixtures, if_neg (by simp)] at hok
      obtain ⟨v, hv⟩ := batchGo_ok_mem _ _ _ hok (Json.obj m) hmem
      simp [processFixtureBody, hm] at hv

/-- Witness for C5 at a concrete input: the batch `[{}]` (a single body that
is an object with no `response` key) fails with the missing-field error and
is never `Ok []`. -/
theorem parse_fixtures_missing_response_errors_witness :
    parse_fixtures fixtureDeserNone [Json.obj []] = .error .missingResponse ∧
    parse_fixtures fixtureDeserNone [Json.obj []] ≠ .ok [] := by
  constructor
  · have h := (parse_fixtures_missing_response_errors fixtureDeserNone).1 [] [] []
      (by simp) rfl
    simpa using h
  · exact (parse_fixtures_missing_response_errors fixtureDeserNone).2
      [Json.obj []] [] (by simp) rfl []

/-- C9: whenever `parse_fixtures` succeeds, the outer result list is
non-empty — one inner list for the empty input, one inner list per body
otherwise — so the `len() == 0` check in `run` that would print
"No fixtures :(" can never fire on a successful parse. -/
theorem parse_fixtures_ok_nonempty (deser : Json → Option (List Fixture))
    (json_list : List Json) (res : List (List Fixture))
    (h : parse_fixtures deser json_list = .ok res) :
    res.length = (if json_list.isEmpty then 1 else json_list.length) ∧ res ≠ [] := by
  cases json_list with
  | nil =>
    have h2 : Except.ok [[]] = Except.ok res := h
    cases h2
    simp
  | cons b rest =>
    rw [parse_fixtures, if_neg (by simp)] at h
    have hlen := batchGo_ok_length _ _ _ h
    refine ⟨by simpa using hlen, ?_⟩
    intro hnil
    rw [hnil] at hlen
    simp at hlen

/-- Witness for C9 at a concrete input: the empty batch succeeds with
`[[]]`, whose length is 1 and which is non-empty. -/
theorem parse_fixtures_ok_nonempty_witness :
    ([[]] : List (List Fixture)).length = (if ([] : List Json).isEmpty then 1 else 0) ∧
    ([[]] : List (List Fixture)) ≠ [] :=
  parse_fixtures_ok_nonempty fixtureDeserNone [] [[]] rfl

/-- C2: `check_if_fixture_in_progress` maps "FT", "TBD" and "NS" to the
empty suffix and every other status short code to "| In Progress". -/
theorem check_if_fixture_in_progress_cases (short_status : String) :
    check_if_fixture_in_progress short_status =
      if short_status = "FT" ∨ short_status = "TBD" ∨ short_status = "NS" then ""
      else "| In Progress" := by
  unfold check_if_fixture_in_progress
  by_cases h1 : short_status = "FT" <;> by_cases h2 : short_status = "TBD" <;>
    by_cases h3 : short_status = "NS" <;> simp [h1, h2, h3]

/-! ## Standings normalization (`parse_standings`) -/

/-- `GoalStats` from src/lib.rs. -/
structure GoalStats where
  against : Int
  for_ : Int

/-- `Stats` from src/lib.rs. -/
structure Stats where
  draw : Int
  goals : GoalStats
  lose : Int
  played : Int
  win : Int

/-- `TeamStanding` from src/lib.rs: one row of a standings table. -/
structure TeamStanding where
  all : Stats
  away : Stats
  description : Option String
  form : Option String
  goals_diff : Int
  group : Option String
  home : Stats
  points : Int
  rank : Int
  status : Option String
  team : Team
  update : Option String

/-- `serde_json`'s `Value` indexing `response[0]` (src/lib.rs line 487):
the first element of an array, and `Value::Null` for an empty array or a
non-array value. -/
def indexZero : Json → Json
  | Json.arr (x :: _) => x
  | _ => Json.null

/-- The derived deserializer for one inner standings group
(`Vec<TeamStanding>`), with the deserializer of a single `TeamStanding`
row taken as the parameter `deserTS`. -/
def deserGroup (deserTS : Json → Option TeamStanding) : Json → Option (List TeamStanding)
  | Json.arr rows => rows.mapM deserTS
  | _ => none

/-- The derived deserializer for `StandingsResponse` (src/lib.rs lines
226–234): a JSON object with a `league` key whose value is an object with a
`standings` key holding an array of groups; anything else fails. The result
is the `league.standings` field, as extracted on line 488. -/
def deserStandingsResponse (deserTS : Json → Option TeamStanding) :
    Json → Option (List (List TeamStanding))
  | Json.obj m =>
    match objGet m "league" with
    | some (Json.obj lm) =>
      match objGet lm "standings" with
      | some (Json.arr groups) => groups.mapM (deserGroup deserTS)
      | _ => none
    | _ => none
  | _ => none

/-- The body of the `for json_response in raw_response` loop of
`parse_standings` (src/lib.rs lines 484–490): parse the body as a JSON
object, look up `response`, deserialize its first element. -/
def processStandingsBody (deserTS : Json → Option TeamStanding) :
    Json → Except ParseError (List (List TeamStanding))
  | Json.obj m =>
    match objGet m "response" with
    | none => .error .missingResponse
    | some r =>
      match deserStandingsResponse deserTS (indexZero r) with
      | none => .error .deserialization
      | some s => .ok s
  | _ => .error .notObject

/-- `parse_standings` from src/lib.rs (lines 478–492): an empty input list
short-circuits to `Ok(vec![])`; otherwise each body is processed in order. -/
def parse_standings (deserTS : Json → Option TeamStanding) (raw_response : List Json) :
    Except ParseError (List (List (List TeamStanding))) :=
  if raw_response.isEmpty then .ok []
  else batchGo (processStandingsBody deserTS) raw_response

/-- A trivial stand-in standings-row deserializer, used only to instantiate
theorems that quantify over the deserializer. -/
def standingDeserNone : Json → Option TeamStanding := fun _ => none

/-- C8: `parse_standings` returns an empty output (not an error) for the
empty input; a body that is an object without a `response` key, or whose
`response` is the empty array, makes the whole batch fail — never `Ok` —
and at the head of a batch those bodies produce the missing-field error
and the deserialization error respectively (the empty array's "first
element" is `Null`, which fails deserialization). -/
theorem parse_standings_error_cases (deserTS : Json → Option TeamStanding) :
    parse_standings deserTS [] = .ok [] ∧
    (∀ (m : List (String × Json)) (post : List Json),
       objGet m "response" = none →
       parse_standings deserTS (Json.obj m :: post) = .error .missingResponse) ∧
    (∀ (m : List (String × Json)) (post : List Json),
       objGet m "response" = some (Json.arr []) →
       parse_standings deserTS (Json.obj m :: post) = .error .deserialization) ∧
    (∀ (bodies : List Json) (m : List (String × Json)),
       Json.obj m ∈ bodies →
       (objGet m "response" = none ∨ objGet m "response" = some (Json.arr [])) →
       ∀ res, parse_standings deserTS bodies ≠ .ok res) := by
  refine ⟨rfl, ?_, ?_, ?_⟩
  · intro m post hm
    rw [parse_standings, if_neg (by simp)]
    simp [batchGo, processStandingsBody, hm]
  · intro m post hm
    rw [parse_standings, if_neg (by simp)]
    simp [batchGo, processStandingsBody, hm, indexZero, deserStandingsResponse]
  · intro bodies m hmem hm res hok
    cases bodies with
    | nil => cases hmem
    | cons b rest =>
      rw [parse_standings, if_neg (by simp)] at hok
      obtain ⟨v, hv⟩ := batchGo_ok_mem _ _ _ hok (Json.obj m) hmem
      rcases hm with hm | hm <;>
        simp [processStandingsBody, hm, indexZero, deserStandingsResponse] at hv

/-- Witness for C8 at concrete inputs: the empty batch yields `Ok []`; the
batch `[{}]` fails with the missing-field error; the batch
`[{"response": []}]` fails with a deserialization error and is never
`Ok []`. -/
theorem parse_standings_error_cases_witness :
    parse_standings standingDeserNone [] = .ok [] ∧
    parse_standings standingDeserNone [Json.obj []] = .error .missingResponse ∧
    parse_standings standingDeserNone [Json.obj [("response", Json.arr [])]] =
      .error .deserialization ∧
    parse_standings standingDeserNone [Json.obj [("response", Json.arr [])]] ≠ .ok [] :=
  ⟨(parse_standings_error_cases standingDeserNone).1,
   (parse_standings_error_cases standingDeserNone).2.1 [] [] rfl,
   (parse_standings_error_cases standingDeserNone).2.2.1 [("response", Json.arr [])] [] rfl,
   (parse_standings_error_cases standingDeserNone).2.2.2
     [Json.obj [("response", Json.arr [])]] [("response", Json.arr [])]
     (by simp) (Or.inr rfl) []⟩

/-! ## Team colorization (`get_text_color`, `parse_rgb_string`) -/

/-- Rust `u8::from_str`: an optional leading `+`, then one or more ASCII
digits, with the value at most 255; anything else is an error. -/
def parse_u8 (s : List Char) : Option Nat :=
  let digits := match s with
    | '+' :: rest => rest
    | _ => s
  if digits.isEmpty then none
  else if digits.all Char.isDigit then
    let n := digits.foldl (fun acc c => acc * 10 + (c.toNat - 48)) 0
    if n ≤ 255 then some n else none
  else none

/-- Rust `str::trim`: strip whitespace from both ends. -/
def trimChars (s : List Char) : List Char :=
  ((s.dropWhile Char.isWhitespace).reverse.dropWhile Char.isWhitespace).reverse

/-- Rust `str::trim_matches` with the pattern `|c| c == '(' || c == ')'`
(src/lib.rs line 796): strip those characters from both ends. -/
def trimParens (s : List Char) : List Char :=
  let p := fun c => c == '(' || c == ')'
  ((s.dropWhile p).reverse.dropWhile p).reverse

/-- Rust `str::split(',')`: the pieces between commas, empty pieces kept,
always at least one piece. -/
def splitOnComma : List Char → List (List Char)
  | [] => [[]]
  | c :: rest =>
    let r := splitOnComma rest
    if c = ',' then [] :: r
    else
      match r with
      | piece :: pieces => (c :: piece) :: pieces
      | [] => [[c]]

/-- `parse_rgb_string` from src/lib.rs (lines 792–805): a stored value with
no `(` is the sentinel resolving to white; otherwise strip parentheses from
the ends, split on commas, trim each piece and parse it as an 8-bit integer.
`none` models a panic of the source: a missing component (`values[i]` out of
bounds) or a failing `.parse::<u8>().unwrap()`. -/
def parse_rgb_string (rgb_string : String) : Option (List Nat) :=
  if !rgb_string.data.contains '(' then some [255, 255, 255]
  else
    let values := splitOnComma (trimParens rgb_string.data)
    match values.get? 0, values.get? 1, values.get? 2 with
    | some v0, some v1, some v2 => do
      let r ← parse_u8 (trimChars v0)
      let g ← parse_u8 (trimChars v1)
      let b ← parse_u8 (trimChars v2)
      some [r, g, b]
    | _, _, _ => none

/-- The RGB-resolution step of `get_text_color` (src/lib.rs lines 783–790):
look the team id up in the color table, substituting `"(255, 255, 255)"`
when absent, and parse. The color table is the id→string map built from
`id_rgb.csv`; the terminal escape wrapping of the team name around the
resolved triple is environment-dependent and outside this model. -/
def get_text_color_rgb (rgb_hash_map : Nat → Option String) (team : Team) :
    Option (List Nat) :=
  parse_rgb_string ((rgb_hash_map team.id).getD "(255, 255, 255)")

/-- C4: a team id absent from the color table resolves to white; a stored
value with no opening parenthesis (the sentinel) resolves to white; and the
well-formed `"(0, 35, 89)"` resolves to exactly `(0, 35, 89)`. -/
theorem get_text_color_rgb_cases (rgb_hash_map : Nat → Option String) (team : Team) :
    (rgb_hash_map team.id = none →
       get_text_color_rgb rgb_hash_map team = some [255, 255, 255]) ∧
    (∀ s, rgb_hash_map team.id = some s → s.data.contains '(' = false →
       get_text_color_rgb rgb_hash_map team = some [255, 255, 255]) ∧
    parse_rgb_string "(0, 35, 89)" = some [0, 35, 89] := by
  refine ⟨?_, ?_, by decide⟩
  · intro h
    rw [get_text_color_rgb, h]
    decide
  · intro s hs hnp
    rw [get_text_color_rgb, hs]
    simp only [Option.getD_some]
    rw [parse_rgb_string, hnp]
    rfl

/-- A concrete color table for the witness: id 50 has a well-formed triple
(the row of `id_rgb.csv` checked by the source's own test), id 7 has the
non-parenthesized sentinel. -/
def colorTableSample : Nat → Option String := fun id =>
  if id = 50 then some "(0, 35, 89)"
  else if id = 7 then some "white"
  else none

/-- Witness for C4 at concrete inputs: an absent id (1) and the sentinel
value of id 7 both resolve to white, and `"(0, 35, 89)"` parses exactly. -/
theorem get_text_color_rgb_cases_witness :
    get_text_color_rgb colorTableSample ⟨1, "Fulham", "", none⟩ = some [255, 255, 255] ∧
    get_text_color_rgb colorTableSample ⟨7, "Leeds", "", none⟩ = some [255, 255, 255] ∧
    parse_rgb_string "(0, 35, 89)" = some [0, 35, 89] :=
  ⟨(get_text_color_rgb_cases colorTableSample ⟨1, "Fulham", "", none⟩).1 rfl,
   (get_text_color_rgb_cases colorTableSample ⟨7, "Leeds", "", none⟩).2.1 "white" rfl rfl,
   (get_text_color_rgb_cases colorTableSample ⟨7, "Leeds", "", none⟩).2.2⟩

/-! ## Fixture row rendering -/

/-- `n` space characters. -/
def spaces (n : Nat) : String := String.mk (List.replicate n ' ')

/-- The whitespace budget `27 - name.len()` computed by each fixture row
formatter (src/lib.rs lines 726–727, 747–748, 768–769); Rust's `len()` is
the UTF-8 byte length. The subtraction is on `usize` and panics when the
name exceeds 27 bytes, so theorems restrict to names of at most 27 bytes. -/
def team_name_whitespace (name : String) : Nat := 27 - name.utf8ByteSize

/-- The number of spaces actually printed by each padding loop
`for _i in 1..tN_whitespace { print!(" "); }` (src/lib.rs lines 730, 732,
751, 753, 772, 774): the Rust range `1..w` has `w - 1` elements (none when
`w` is 0). -/
def printed_padding (w : Nat) : Nat := w - 1

/-- `format_live_row` (src/lib.rs lines 722–741) as the one line it prints.
`colorize` stands for `get_text_color`'s terminal-escape wrapping of the
name and `bold` for `colored`'s `.bold()` (both environment-dependent);
`none` models the `unwrap` panics on absent goals or elapsed minutes. -/
def format_live_row (colorize bold : String → String) (fixture : Fixture) :
    Option String := do
  let away_goals ← fixture.goals.away
  let home_goals ← fixture.goals.home
  let elapsed ← fixture.fixture.status.elapsed
  some (colorize fixture.teams.away.name ++
    spaces (printed_padding (team_name_whitespace fixture.teams.away.name)) ++
    colorize fixture.teams.home.name ++
    spaces (printed_padding (team_name_whitespace fixture.teams.home.name)) ++
    ": " ++ bold (toString away_goals) ++ " - " ++ bold (toString home_goals) ++
    " in " ++ bold (toString elapsed) ++ "'\n")

/-- `format_score_row` (src/lib.rs lines 743–762) as the one line it prints;
`none` models the `unwrap` panics on absent goals and the slice panic of
`date[5..10]` on a date string shorter than 10 bytes. -/
def format_score_row (colorize bold : String → String) (fixture : Fixture) :
    Option String := do
  let away_goals ← fixture.goals.away
  let home_goals ← fixture.goals.home
  let month_day ←
    if 10 ≤ fixture.fixture.date.utf8ByteSize then
      some (fixture.fixture.date.extract ⟨5⟩ ⟨10⟩)
    else none
  some (colorize fixture.teams.away.name ++
    spaces (printed_padding (team_name_whitespace fixture.teams.away.name)) ++
    colorize fixture.teams.home.name ++
    spaces (printed_padding (team_name_whitespace fixture.teams.home.name)) ++
    bold (toString away_goals) ++ " - " ++ bold (toString home_goals) ++
    " on " ++ month_day ++ "\n")

/-- `format_schedule_row` (src/lib.rs lines 764–781) as the one line it
prints; `to_hm` stands for `unix_to_cst` (local-timezone `HH:MM`
formatting, environment-dependent). -/
def format_schedule_row (colorize bold : String → String) (to_hm : Int → String)
    (fixture : Fixture) : String :=
  colorize fixture.teams.away.name ++
  spaces (printed_padding (team_name_whitespace fixture.teams.away.name)) ++
  "at " ++ colorize fixture.teams.home.name ++
  spaces (printed_padding (team_name_whitespace fixture.teams.home.name)) ++
  "at " ++ bold (to_hm fixture.fixture.timestamp) ++ " " ++
  check_if_fixture_in_progress fixture.fixture.status.short ++ "\n"

/-- A concrete not-started fixture for counterexamples: away name of 9
bytes, home name of 7 bytes. -/
def sampleFixture : Fixture :=
  { fixture := { id := 1, referee := "", timezone := "UTC",
                 date := "2024-05-05T15:00:00+00:00", timestamp := 1714921200,
                 periods := ⟨none, none⟩, venue := none,
                 status := ⟨"Not Started", "NS", none⟩ },
    league := { id := 39, name := "Premier League", country := "England",
                logo := "", flag := none, season := 2023, round := none },
    teams := { home := ⟨45, "Everton", "", none⟩, away := ⟨40, "Liverpool", "", none⟩ },
    goals := ⟨none, none⟩,
    score := none }

/-- Counterexample to C3: for the 9-byte name "Liverpool" the padding loops
print 17 spaces, not the 18 = 27 − 9 the claim states, as the rendered
schedule row shows — each name field occupies 26 display characters. -/
theorem fixture_row_padding_counterexample :
    printed_padding (team_name_whitespace "Liverpool") = 17 ∧
    27 - "Liverpool".utf8ByteSize = 18 ∧
    printed_padding (team_name_whitespace "Liverpool") ≠ 27 - "Liverpool".utf8ByteSize ∧
    format_schedule_row id id (fun _ => "15:00") sampleFixture =
      "Liverpool" ++ spaces 17 ++ "at Everton" ++ spaces 19 ++ "at 15:00 \n" := by
  refine ⟨by decide, by decide, by decide, ?_⟩
  rfl

/-- C3 amended: in every fixture row renderer the padding loop after a team
name of `L ≤ 26` bytes prints `26 − L` spaces, so the colorized-name field
occupies exactly 26 display characters (not 27: the loop `for _i in 1..w`
runs `w − 1` times). -/
theorem fixture_row_padding_amended (name : String) (h : name.utf8ByteSize ≤ 26) :
    printed_padding (team_name_whitespace name) = 26 - name.utf8ByteSize ∧
    name.utf8ByteSize + printed_padding (team_name_whitespace name) = 26 := by
  unfold printed_padding team_name_whitespace
  omega

/-- Witness for the amended C3 at the concrete 9-byte name "Liverpool":
17 printed spaces and a 26-character field. -/
theorem fixture_row_padding_amended_witness :
    printed_padding (team_name_whitespace "Liverpool") = 26 - "Liverpool".utf8ByteSize ∧
    "Liverpool".utf8ByteSize + printed_padding (team_name_whitespace "Liverpool") = 26 :=
  fixture_row_padding_amended "Liverpool" (by decide)

/-! ## Roster store -/

/-- `TeamCSVRecord` from src/lib.rs: one roster row. -/
structure TeamCSVRecord where
  name : String
  id : Nat
deriving DecidableEq

/-- `add_team_to_csv` (src/lib.rs lines 577–594) at the level of the decoded
row list: the file is opened with `create(true).append(true)`, so the new
record is serialized after all existing rows. -/
def add_team_to_csv (rows : List TeamCSVRecord) (team : TeamCSVRecord) :
    List TeamCSVRecord :=
  rows ++ [team]

/-- Rust `String::to_lowercase` at the ASCII level (`Char.toLower` per
character), written over the character list so the kernel can evaluate it. -/
def strToLower (s : String) : String := String.mk (s.data.map Char.toLower)

/-- `remove_team_from_csv` (src/lib.rs lines 596–614) at the level of the
decoded row list: read all rows, `retain` those whose lowercased name
differs from the lowercased requested name, rewrite the file from them. -/
def remove_team_from_csv (rows : List TeamCSVRecord) (team : String) :
    List TeamCSVRecord :=
  rows.filter (fun record => strToLower record.name != strToLower team)

/-- Counterexample to C6: on a roster already holding a row whose name
matches case-insensitively, appending and then removing by that name wipes
the pre-existing row too, so the pre-append roster is not restored. -/
theorem add_remove_roundtrip_counterexample :
    remove_team_from_csv
        (add_team_to_csv [⟨"Arsenal", 42⟩] ⟨"ARSENAL", 57⟩) "ARSENAL" = [] ∧
    ([] : List TeamCSVRecord) ≠ [⟨"Arsenal", 42⟩] := by
  exact ⟨by decide, by simp⟩

/-- C6 amended: appending a roster entry and then removing it by the same
name restores the pre-append content and size, provided no existing row's
name already matches the entry's name case-insensitively. -/
theorem add_remove_roundtrip_amended (rows : List TeamCSVRecord) (team : TeamCSVRecord)
    (h : ∀ r ∈ rows, strToLower r.name ≠ strToLower team.name) :
    remove_team_from_csv (add_team_to_csv rows team) team.name = rows ∧
    (remove_team_from_csv (add_team_to_csv rows team) team.name).length = rows.length := by
  have hmain : remove_team_from_csv (add_team_to_csv rows team) team.name = rows := by
    unfold remove_team_from_csv add_team_to_csv
    rw [List.filter_append]
    have h1 : rows.filter (fun r => strToLower r.name != strToLower team.name) = rows :=
      List.filter_eq_self.mpr (fun r hr => by simpa using h r hr)
    have h2 : [team].filter (fun r => strToLower r.name != strToLower team.name) = [] := by
      simp [List.filter]
    rw [h1, h2, List.append_nil]
  exact ⟨hmain, by rw [hmain]⟩

/-- Witness for the amended C6 at a concrete roster: the empty roster plus
"Arsenal", with "Arsenal" then removed, is the empty roster again. -/
theorem add_remove_roundtrip_amended_witness :
    remove_team_from_csv (add_team_to_csv [] ⟨"Arsenal", 42⟩) "Arsenal" = [] ∧
    (remove_team_from_csv (add_team_to_csv [] ⟨"Arsenal", 42⟩) "Arsenal").length =
      ([] : List TeamCSVRecord).length :=
  add_remove_roundtrip_amended [] ⟨"Arsenal", 42⟩ (by simp)

/-- The roster file system: a map from path to optional decoded file
content (`none` = the file does not exist). -/
def RosterFS : Type := String → Option (List TeamCSVRecord)

/-- The path `read_from_teams_csv` (src/lib.rs lines 530–542) opens: the
`CONFIG_PATH` environment variable when set, else `"./teams.csv"`. -/
def readAllPath (config_path : Option String) : String :=
  config_path.getD "./teams.csv"

/-- `read_from_teams_csv` at the file-system level: the decoded rows of the
configured path (`none` models the `from_path` error on a missing file; the
HashMap it builds is a function of these rows). -/
def read_from_teams_csv (config_path : Option String) (fs : RosterFS) :
    Option (List TeamCSVRecord) :=
  fs (readAllPath config_path)

/-- `add_team_to_csv` at the file-system level: it opens the hardcoded
`"./teams.csv"` (src/lib.rs line 582) regardless of `CONFIG_PATH`, creating
it when absent, and appends. -/
def add_team_to_csv_fs (fs : RosterFS) (team : TeamCSVRecord) : RosterFS :=
  fun p =>
    if p = "./teams.csv" then some (add_team_to_csv ((fs "./teams.csv").getD []) team)
    else fs p

/-- `remove_team_from_csv` at the file-system level: it reads and rewrites
the hardcoded `"./teams.csv"` (src/lib.rs lines 597, 603) regardless of
`CONFIG_PATH`; `none` models the `unwrap` panic when the file is absent. -/
def remove_team_from_csv_fs (fs : RosterFS) (team : String) : Option RosterFS :=
  match fs "./teams.csv" with
  | none => none
  | some rows =>
    some (fun p =>
      if p = "./teams.csv" then some (remove_team_from_csv rows team) else fs p)

/-- C10: append and remove always mutate the fixed path `"./teams.csv"`,
so when `CONFIG_PATH` names any other file, the file read-all reads is left
unchanged by both operations. -/
theorem roster_mutations_fixed_path (fs : RosterFS) (cp : String)
    (team : TeamCSVRecord) (name : String) (h : cp ≠ "./teams.csv") :
    read_from_teams_csv (some cp) (add_team_to_csv_fs fs team) =
      read_from_teams_csv (some cp) fs ∧
    ∀ fsr, remove_team_from_csv_fs fs name = some fsr →
      read_from_teams_csv (some cp) fsr = read_from_teams_csv (some cp) fs := by
  constructor
  · simp [read_from_teams_csv, readAllPath, add_team_to_csv_fs, h]
  · intro fsr hr
    unfold remove_team_from_csv_fs at hr
    cases hfs : fs "./teams.csv" with
    | none => rw [hfs] at hr; cases hr
    | some rows =>
      rw [hfs] at hr
      cases hr
      simp [read_from_teams_csv, readAllPath, h]

/-- A one-file file system for the C10 witness: `"./teams.csv"` exists and
is empty, nothing else exists. -/
def rosterFSSample : RosterFS := fun p => if p = "./teams.csv" then some [] else none

/-- The file system `rosterFSSample` becomes after removing "A". -/
def rosterFSSampleRemoved : RosterFS := fun p =>
  if p = "./teams.csv" then some (remove_team_from_csv [] "A") else rosterFSSample p

/-- Witness for C10 at concrete inputs: with `CONFIG_PATH = "./other.csv"`,
appending and removing leave what read-all reads unchanged. -/
theorem roster_mutations_fixed_path_witness :
    read_from_teams_csv (some "./other.csv") (add_team_to_csv_fs rosterFSSample ⟨"A", 1⟩) =
      read_from_teams_csv (some "./other.csv") rosterFSSample ∧
    read_from_teams_csv (some "./other.csv") rosterFSSampleRemoved =
      read_from_teams_csv (some "./other.csv") rosterFSSample :=
  ⟨(roster_mutations_fixed_path rosterFSSample "./other.csv" ⟨"A", 1⟩ "A"
      (by decide)).1,
   (roster_mutations_fixed_path rosterFSSample "./other.csv" ⟨"A", 1⟩ "A"
      (by decide)).2 rosterFSSampleRemoved rfl⟩

/-! ## Schedule URL construction -/

/-- `BASE_URL` from src/lib.rs line 13. -/
def BASE_URL : String := "https://api-football-v1.p.rapidapi.com/v3/fixtures?"

/-- `get_fixtures_url_by_league` (src/lib.rs lines 662–668) given the result
`today` of the `get_today_date()` call made inside its own body; the season
is the hardcoded 2023. -/
def get_fixtures_url_by_league (today : String) (league_id : Nat) : String :=
  BASE_URL ++ "league=" ++ toString league_id ++ "&season=2023&date=" ++ today

/-- The URL-building loop of `get_schedule` (src/lib.rs lines 325–335):
iteration `i` calls `get_fixtures_url_by_league`, whose body invokes
`get_today_date()` anew; the oracle `clock` gives the date string observed
by the i-th such call of the batch. -/
def schedule_urls_go (clock : Nat → String) (i : Nat) : List Nat → List String
  | [] => []
  | league_id :: rest =>
    get_fixtures_url_by_league (clock i) league_id :: schedule_urls_go clock (i + 1) rest

/-- The URLs requested by one whole `get_schedule` batch over the preferred
league list. -/
def schedule_urls (clock : Nat → String) (leagues : List Nat) : List String :=
  schedule_urls_go clock 0 leagues

/-- The date strings used by one whole `get_schedule` batch: one fresh
`get_today_date()` result per league call. -/
def schedule_dates (clock : Nat → String) (leagues : List Nat) : List String :=
  (List.range leagues.length).map clock

/-- `Settings` from src/lib.rs (lines 54–59); the teams map is the empty
`HashMap` that `load_settings` constructs. -/
structure Settings where
  teams : List (String × Nat)
  preferred_leagues : List Nat
  full_leagues : List Nat
  default : CommandType

/-- `load_settings` from src/lib.rs (lines 687–698). -/
def load_settings : Settings :=
  { teams := [],
    preferred_leagues := [39, 135, 78],
    full_leagues := [39, 140, 88, 78, 135, 61, 94, 253],
    default := CommandType.schedule }

/-- A clock that crosses a UTC day boundary between the first and the
second league call of a batch. -/
def dayBoundaryClock : Nat → String := fun i =>
  if i = 0 then "2024-01-01" else "2024-01-02"

/-- Counterexample to C7: `get_today_date()` runs inside
`get_fixtures_url_by_league`, once per league call, so a batch whose calls
straddle a day boundary embeds two different `date=` components — the date
is not computed once and reused. -/
theorem schedule_date_recomputed_counterexample :
    schedule_urls dayBoundaryClock [39, 135] =
      ["https://api-football-v1.p.rapidapi.com/v3/fixtures?league=39&season=2023&date=2024-01-01",
       "https://api-football-v1.p.rapidapi.com/v3/fixtures?league=135&season=2023&date=2024-01-02"] ∧
    schedule_dates dayBoundaryClock [39, 135] = ["2024-01-01", "2024-01-02"] ∧
    ("2024-01-01" : String) ≠ "2024-01-02" := by
  refine ⟨by decide, by decide, by decide⟩

/-- Auxiliary: when the clock is constant on the indices a loop tail uses,
the loop produces the single-date URL list. -/
theorem schedule_urls_go_const (clock : Nat → String) (d : String) :
    ∀ (leagues : List Nat) (i : Nat), (∀ j, i ≤ j → j < i + leagues.length → clock j = d) →
      schedule_urls_go clock i leagues = leagues.map (get_fixtures_url_by_league d) := by
  intro leagues
  induction leagues with
  | nil => intro i _; rfl
  | cons lid rest ih =>
    intro i h
    have h0 : clock i = d := h i (Nat.le_refl i) (by simp [Nat.lt_add_of_pos_right])
    have hrest : ∀ j, i + 1 ≤ j → j < (i + 1) + rest.length → clock j = d := by
      intro j h1 h2
      exact h j (Nat.le_of_succ_le h1) (by simp only [List.length_cons]; omega)
    simp [schedule_urls_go, h0, ih (i + 1) hrest]

/-- C7 amended: today's date is recomputed by every per-league call (inside
`get_fixtures_url_by_league`), so the `date=` component is identical across
the batch's URLs only when every call observes the same day — in particular
whenever no UTC day boundary is crossed mid-batch. -/
theorem schedule_date_per_call_amended (clock : Nat → String) (d : String)
    (leagues : List Nat) (h : ∀ i, i < leagues.length → clock i = d) :
    schedule_urls clock leagues = leagues.map (get_fixtures_url_by_league d) ∧
    schedule_dates clock leagues = List.replicate leagues.length d := by
  constructor
  · exact schedule_urls_go_const clock d leagues 0 (fun j _ hj => h j (by simpa using hj))
  · rw [List.eq_replicate_iff]
    constructor
    · simp [schedule_dates]
    · intro b hb
      simp only [schedule_dates, List.mem_map, List.mem_range] at hb
      obtain ⟨i, hi, rfl⟩ := hb
      exact h i hi

/-- A constant clock: the whole batch runs on one day. -/
def constClock : Nat → String := fun _ => "2024-06-01"

/-- Witness for the amended C7 at concrete inputs: over the preferred
league list with a constant clock, all URLs carry the same date. -/
theorem schedule_date_per_call_amended_witness :
    schedule_urls constClock load_settings.preferred_leagues =
      load_settings.preferred_leagues.map (get_fixtures_url_by_league "2024-06-01") ∧
    schedule_dates constClock load_settings.preferred_leagues =
      List.replicate load_settings.preferred_leagues.length "2024-06-01" :=
  schedule_date_per_call_amended constClock "2024-06-01"
    load_settings.preferred_leagues (fun _ _ => rfl)

end Footy
